import Mathlib

/-!
Shallow embedding of PySAGA_cmd (src/src/saga.py): the SAGACMD executable
handle, Flag, Parameters, Command, the SAGA / Library / Tool hierarchy and
Output extraction, together with models of the collaborators the code uses
(the filesystem checks from src.utils, subprocess.run, and the Raster and
Vector result types from the objects module).

Python object attributes that are rebound ("self._flag = Flag(flag)") are
modelled with an explicit heap of Flag cells, because Flag objects are
shared by reference between hierarchy levels at descent time: a SAGA and
the Library created from it initially reference the same Flag cell, and a
flag assignment allocates a fresh cell and rebinds only the assigning
instance.  Everything else in the code is either immutable or owned by a
single object and is modelled by plain values.
-/

namespace PySAGA

/-- Models Python str.upper for the ASCII identifier keys used as keyword
argument names (Char.toUpper uppercases exactly the ASCII letters). -/
def pyUpper (s : String) : String :=
  ⟨s.data.map Char.toUpper⟩

/-- Models Python str.startswith: the candidate string begins with the
given pattern. -/
def pyStartsWith (s pat : String) : Bool :=
  pat.data.isPrefixOf s.data

/-- Values accepted wherever the code takes a SupportsStr argument; the
embedding covers the string and integer cases actually exercised by the
repository (for example method=0). -/
inductive SupportsStr where
  | s (v : String)
  | i (v : Int)

/-- Python str(v) on a SupportsStr value. -/
def SupportsStr.str : SupportsStr → String
  | .s v => v
  | .i v => toString v

/-- Kind of a filesystem entry, for the SAGACMD construction checks. -/
inductive FileKind where
  | file
  | directory
deriving DecidableEq

/-- A filesystem entry: its kind and whether it is executable. -/
structure FSEntry where
  kind : FileKind
  executable : Bool
deriving DecidableEq

/-- A filesystem: maps a path string to its entry, when one exists. -/
abbrev FileSystem := String → Option FSEntry

/-- The distinct error kinds raised while validating the saga_cmd path. -/
inductive SagaError where
  | pathDoesNotExist
  | isADirectory
  | notExecutable
deriving DecidableEq

/-- Modelled from the spec: check_is_file lives in src/utils, which is not
under src/.  Per the spec (section 4.1) it performs the existence check
first, raising the path-not-found kind, and then the not-a-directory
check, raising the is-a-directory kind. -/
def check_is_file (fs : FileSystem) (p : String) : Except SagaError Unit :=
  match fs p with
  | none => .error .pathDoesNotExist
  | some e => if e.kind = FileKind.directory then .error .isADirectory else .ok ()

/-- Modelled from the spec: check_is_executable lives in src/utils, which
is not under src/.  Per the spec (section 4.1) it raises the
not-executable kind when the path cannot be executed. -/
def check_is_executable (fs : FileSystem) (p : String) : Except SagaError Unit :=
  match fs p with
  | none => .error .notExecutable
  | some e => if e.executable then .ok () else .error .notExecutable

/-- The saga_cmd file object (SAGACMD): a validated path to the
executable.  str(SAGACMD) is the plain path text. -/
structure SAGACMD where
  saga_cmd_path : String
deriving DecidableEq

/-- SAGACMD.__init__ with an explicit path: runs check_is_file then
check_is_executable; each failure aborts construction with its error
kind, so no partial object is produced. -/
def SAGACMD.init (fs : FileSystem) (p : String) : Except SagaError SAGACMD :=
  match check_is_file fs p with
  | .error e => .error e
  | .ok _ =>
    match check_is_executable fs p with
    | .error e => .error e
    | .ok _ => .ok ⟨p⟩

/-- Flag: an optional raw modifier string (Flag.flag may be None). -/
structure Flag where
  flag : Option String
deriving DecidableEq

/-- Flag.__str__: empty when unset; the raw value unchanged when it
already starts with the double-dash external prefix; otherwise the prefix
prepended. -/
def Flag.toStr (f : Flag) : String :=
  match f.flag with
  | none => ""
  | some s => if pyStartsWith s "--" then s else "--" ++ s

/-- Flag.__bool__: set iff the raw value is not None. -/
def Flag.toBool (f : Flag) : Bool :=
  f.flag.isSome

/-- The operand of a Flag equality test: another Flag or a plain string. -/
inductive FlagOrStr where
  | fl (g : Flag)
  | st (s : String)

/-- Evaluation of the Python expression str(self) == other.  Against a
plain string this is string equality; against a Flag, str.__eq__ returns
NotImplemented and Python dispatches the reflected Flag.__eq__, which
compares that Flag's canonical string with the left operand. -/
def pyStrEqOperand (s : String) (other : FlagOrStr) : Bool :=
  match other with
  | .st t => s == t
  | .fl g => g.toStr == s

/-- Flag.__eq__: returns str(self) == other. -/
def Flag.eq (f : Flag) (other : FlagOrStr) : Bool :=
  pyStrEqOperand f.toStr other

/-- Parameters: the mapping from parameter name to stringified value,
in insertion order of the supplied keyword arguments (Python dict order).
Constructed only through Parameters.ofKwargs, which performs the
str(v) conversion of Parameters.__init__. -/
structure Parameters where
  entries : List (String × String)
deriving DecidableEq

/-- Parameters(**kwargs): stores each value as its string form, keeping
keys unmodified and in insertion order. -/
def Parameters.ofKwargs (kwargs : List (String × SupportsStr)) : Parameters :=
  ⟨kwargs.map (fun kv => (kv.1, kv.2.str))⟩

/-- The derived token list _params of Parameters.__init__: one token per
entry, formatted as the dash, the key uppercased, an equals sign, and the
stored value.  Parameters.__iter__ yields exactly this list. -/
def Parameters.params (p : Parameters) : List String :=
  p.entries.map (fun kv => "-" ++ pyUpper kv.1 ++ "=" ++ kv.2)

/-- The keys of the stored mapping, in insertion order. -/
def Parameters.keys (p : Parameters) : List String :=
  p.entries.map Prod.fst

/-- One positional argument passed to Command.__init__, tagged with the
Python type it has at the call site: the SAGACMD object, a Flag object,
a Library object (of which Command only ever uses the library name), or a
plain string (the tool name and the splatted parameter tokens). -/
inductive Arg where
  | ofSagaCmd (c : SAGACMD)
  | ofFlag (f : Flag)
  | ofLibrary (name : String)
  | ofStr (s : String)

/-- Python truthiness of a Command argument: SAGACMD and Library are
dataclasses without __bool__ or __len__ and are always truthy; a Flag is
truthy iff set (Flag.__bool__); a string is truthy iff non-empty. -/
def Arg.truthy : Arg → Bool
  | .ofSagaCmd _ => true
  | .ofFlag f => f.toBool
  | .ofLibrary _ => true
  | .ofStr s => !(s == "")

/-- Python str() of a Command argument: the SAGACMD path, the canonical
flag string, the library name (Library.__str__), or the string itself. -/
def Arg.toStr : Arg → String
  | .ofSagaCmd c => c.saga_cmd_path
  | .ofFlag f => f.toStr
  | .ofLibrary name => name
  | .ofStr s => s

/-- Command: the ordered token list passed to subprocess.run. -/
structure Command where
  args : List String
deriving DecidableEq

/-- Command.__init__: keeps the truthy arguments, stringified, in order
(the comprehension [str(arg) for arg in args if arg]). -/
def Command.ofArgs (argv : List Arg) : Command :=
  ⟨(argv.filter Arg.truthy).map Arg.toStr⟩

/-- The result of a finished child process, as subprocess.CompletedProcess
preserves it: argument vector, exit status, captured stdout and stderr. -/
structure CompletedProcess where
  args : List String
  returncode : Int
  stdout : String
  stderr : String
deriving DecidableEq

/-- The distinct error kinds a process spawn can raise (the executable is
missing, or permission is denied at spawn time). -/
inductive SpawnError where
  | fileNotFound
  | permissionDenied
deriving DecidableEq

/-- The operating system seen by one spawn attempt: for an argument
vector, either a spawn failure or the exit status and the captured
stdout and stderr of the terminated child. -/
abbrev OSModel := List String → Except SpawnError (Int × String × String)

/-- Modelled from the documented semantics of subprocess.run(args,
capture_output=True, text=True), which the repository calls without
check=True: a spawn failure propagates as an exception, and a terminated
child of any exit status, zero or not, is returned as a CompletedProcess
carrying its status and captured streams. -/
def subprocess_run (os : OSModel) (args : List String) :
    Except SpawnError CompletedProcess :=
  match os args with
  | .error e => .error e
  | .ok (rc, out, err) => .ok ⟨args, rc, out, err⟩

/-- Command.execute: passes the token list to subprocess.run. -/
def Command.execute (c : Command) (os : OSModel) :
    Except SpawnError CompletedProcess :=
  subprocess_run os c.args

/-- The heap of Flag objects: Flag instances are shared by reference
between hierarchy levels, so levels store cell indices into this heap. -/
structure Heap where
  flags : List Flag

/-- Dereference a Flag cell. -/
def Heap.get (h : Heap) (r : Nat) : Flag :=
  h.flags.getD r ⟨none⟩

/-- Allocate a fresh Flag object, returning the new heap and its cell. -/
def Heap.alloc (h : Heap) (f : Flag) : Heap × Nat :=
  (⟨h.flags ++ [f]⟩, h.flags.length)

/-- The flag argument of a constructor: either a raw optional string (not
a Flag instance, so the constructor allocates Flag(flag)), or an existing
Flag object, stored by reference without allocation. -/
inductive FlagInit where
  | raw (s : Option String)
  | obj (r : Nat)

/-- The isinstance(flag, Flag) branch shared by the three constructors:
a raw value is wrapped in a freshly allocated Flag, an existing object is
kept as the same reference. -/
def allocFlagInit (h : Heap) (fi : FlagInit) : Heap × Nat :=
  match fi with
  | .raw s => h.alloc ⟨s⟩
  | .obj r => (h, r)

/-- The SAGA program level: the executable handle and the Flag cell. -/
structure SAGA where
  saga_cmd : SAGACMD
  flagRef : Nat

/-- The Library level: executable handle, Flag cell, library name. -/
structure Library where
  saga_cmd : SAGACMD
  flagRef : Nat
  library : String

/-- The Tool level: executable handle, Flag cell, the Library object the
tool was created from (Command only uses its name), the tool name, and
the exclusively owned Parameters. -/
structure Tool where
  saga_cmd : SAGACMD
  flagRef : Nat
  library : Library
  tool : String
  parameters : Parameters

/-- SAGA.__init__ with an already validated SAGACMD. -/
def SAGA.init (h : Heap) (cmd : SAGACMD) (fi : FlagInit) : Heap × SAGA :=
  let hr := allocFlagInit h fi
  (hr.1, ⟨cmd, hr.2⟩)

/-- The flag property (getter) of SAGA. -/
def SAGA.flag (s : SAGA) (h : Heap) : Flag :=
  h.get s.flagRef

/-- SAGA.command: Command(self.saga_cmd, self.flag). -/
def SAGA.command (s : SAGA) (h : Heap) : Command :=
  Command.ofArgs [.ofSagaCmd s.saga_cmd, .ofFlag (s.flag h)]

/-- The flag setter of SAGA: rebinds the attribute to a freshly
allocated Flag(flag); the previous cell is untouched. -/
def SAGA.set_flag (s : SAGA) (h : Heap) (v : Option String) : Heap × SAGA :=
  let hr := h.alloc ⟨v⟩
  (hr.1, {s with flagRef := hr.2})

/-- The flag deleter of SAGA: rebinds the attribute to a fresh unset
Flag(). -/
def SAGA.del_flag (s : SAGA) (h : Heap) : Heap × SAGA :=
  let hr := h.alloc ⟨none⟩
  (hr.1, {s with flagRef := hr.2})

/-- Library.__init__ with an already validated SAGACMD. -/
def Library.init (h : Heap) (library : String) (cmd : SAGACMD)
    (fi : FlagInit) : Heap × Library :=
  let hr := allocFlagInit h fi
  (hr.1, ⟨cmd, hr.2, library⟩)

/-- SAGA.get_library: Library(saga_cmd=self.saga_cmd, flag=self.flag,
library=library); self.flag is a Flag instance, so the new Library shares
the same Flag cell. -/
def SAGA.get_library (s : SAGA) (h : Heap) (library : String) :
    Heap × Library :=
  Library.init h library s.saga_cmd (.obj s.flagRef)

/-- The flag property (getter) of Library. -/
def Library.flag (l : Library) (h : Heap) : Flag :=
  h.get l.flagRef

/-- Library.command: Command(self.saga_cmd, self.flag, self.library);
here self.library is the name string. -/
def Library.command (l : Library) (h : Heap) : Command :=
  Command.ofArgs [.ofSagaCmd l.saga_cmd, .ofFlag (l.flag h), .ofStr l.library]

/-- The flag setter of Library. -/
def Library.set_flag (l : Library) (h : Heap) (v : Option String) :
    Heap × Library :=
  let hr := h.alloc ⟨v⟩
  (hr.1, {l with flagRef := hr.2})

/-- The flag deleter of Library. -/
def Library.del_flag (l : Library) (h : Heap) : Heap × Library :=
  let hr := h.alloc ⟨none⟩
  (hr.1, {l with flagRef := hr.2})

/-- Tool.__init__ with an already validated SAGACMD: stores the Library
object, the tool name, and a fresh empty Parameters(). -/
def Tool.init (h : Heap) (l : Library) (tool : String) (cmd : SAGACMD)
    (fi : FlagInit) : Heap × Tool :=
  let hr := allocFlagInit h fi
  (hr.1, ⟨cmd, hr.2, l, tool, ⟨[]⟩⟩)

/-- Library.get_tool: Tool(saga_cmd=self.saga_cmd, flag=self.flag,
library=self, tool=tool); the new Tool shares the Flag cell. -/
def Library.get_tool (l : Library) (h : Heap) (tool : String) :
    Heap × Tool :=
  Tool.init h l tool l.saga_cmd (.obj l.flagRef)

/-- The flag property (getter) of Tool. -/
def Tool.flag (t : Tool) (h : Heap) : Flag :=
  h.get t.flagRef

/-- Tool.command: Command(self.saga_cmd, self.flag, self.library,
self.tool, *self.parameters); the splat yields the parameter tokens and
self.library is the Library object. -/
def Tool.command (t : Tool) (h : Heap) : Command :=
  Command.ofArgs
    ([.ofSagaCmd t.saga_cmd, .ofFlag (t.flag h),
      .ofLibrary t.library.library, .ofStr t.tool]
     ++ t.parameters.params.map Arg.ofStr)

/-- The flag setter of Tool. -/
def Tool.set_flag (t : Tool) (h : Heap) (v : Option String) : Heap × Tool :=
  let hr := h.alloc ⟨v⟩
  (hr.1, {t with flagRef := hr.2})

/-- The flag deleter of Tool. -/
def Tool.del_flag (t : Tool) (h : Heap) : Heap × Tool :=
  let hr := h.alloc ⟨none⟩
  (hr.1, {t with flagRef := hr.2})

/-- Tool.set_params: replaces the owned Parameters with a newly built
Parameters(**kwargs). -/
def Tool.set_params (t : Tool) (kwargs : List (String × SupportsStr)) : Tool :=
  {t with parameters := Parameters.ofKwargs kwargs}

/-- Output: the completed process, the Parameters passed along, and the
text attribute fixed at construction to the captured stdout. -/
structure Output where
  completed_process : CompletedProcess
  parameters : Parameters
  text : String
deriving DecidableEq

/-- Output(completed_process, parameters): __post_init__ sets text to the
captured stdout. -/
def Output.ofRun (cp : CompletedProcess) (ps : Parameters) : Output :=
  ⟨cp, ps, cp.stdout⟩

/-- Tool.run_command: when kwargs are supplied (a non-empty dict is
truthy) the Parameters are replaced first; then the current command is
executed and the Output wraps the completed process together with the
Parameters now stored on the tool.  A spawn failure propagates. -/
def Tool.run_command (t : Tool) (h : Heap) (os : OSModel)
    (kwargs : List (String × SupportsStr)) :
    Tool × Except SpawnError Output :=
  let t1 := if kwargs.isEmpty then t else t.set_params kwargs
  match (t1.command h).execute os with
  | .error e => (t1, .error e)
  | .ok cp => (t1, .ok (Output.ofRun cp t1.parameters))

/-- Modelled from the spec: the Raster result type lives in the objects
module, which is not under src/; the spec (section 6) only requires a
single-argument constructor wrapping a path-like string. -/
structure Raster where
  path : String
deriving DecidableEq

/-- Modelled from the spec: the Vector result type lives in the objects
module, which is not under src/; the spec (section 6) only requires a
single-argument constructor wrapping a path-like string. -/
structure Vector where
  path : String
deriving DecidableEq

/-- The parameters argument of the extraction methods: one name or a
sequence of names. -/
inductive StrOrSeq where
  | one (s : String)
  | many (l : List String)

/-- The normalization at the top of get_raster and get_vector: a single
string is wrapped into a one-element list. -/
def StrOrSeq.toList : StrOrSeq → List String
  | .one s => [s]
  | .many l => l

/-- Output.get_raster: one Raster per stored entry whose key is among the
requested names, wrapping the stored value, in the insertion order of the
stored Parameters. -/
def Output.get_raster (o : Output) (ps : StrOrSeq) : List Raster :=
  (o.parameters.entries.filter (fun kv => ps.toList.contains kv.1)).map
    (fun kv => ⟨kv.2⟩)

/-- Output.get_vector: one Vector per stored entry whose key is among the
requested names, wrapping the stored value, in the insertion order of the
stored Parameters. -/
def Output.get_vector (o : Output) (ps : StrOrSeq) : List Vector :=
  (o.parameters.entries.filter (fun kv => ps.toList.contains kv.1)).map
    (fun kv => ⟨kv.2⟩)

/-! Helper lemmas. -/

/-- Reading below the old length is unchanged by an append. -/
theorem getD_append_lt {α : Type} (l l' : List α) (r : Nat) (d : α)
    (h : r < l.length) : (l ++ l').getD r d = l.getD r d := by
  induction l generalizing r with
  | nil => cases h
  | cons a t ih =>
    cases r with
    | zero => rfl
    | succ n => exact ih n (Nat.lt_of_succ_lt_succ h)

/-- Reading at the old length after appending one element yields it. -/
theorem getD_append_length {α : Type} (l : List α) (f d : α) :
    (l ++ [f]).getD l.length d = f := by
  induction l with
  | nil => rfl
  | cons a t ih => exact ih

/-- A cell that existed before an allocation still reads the same. -/
theorem Heap.get_alloc_lt (h : Heap) (f : Flag) (r : Nat)
    (hr : r < h.flags.length) : (h.alloc f).1.get r = h.get r := by
  simpa [Heap.alloc, Heap.get] using getD_append_lt h.flags [f] r ⟨none⟩ hr

/-- The freshly allocated cell reads the allocated Flag. -/
theorem Heap.get_alloc_self (h : Heap) (f : Flag) :
    (h.alloc f).1.get (h.alloc f).2 = f := by
  simpa [Heap.alloc, Heap.get] using getD_append_length h.flags f ⟨none⟩

/-- The canonical string of a set Flag is never empty. -/
theorem Flag.toStr_some_ne_empty (v : String) :
    Flag.toStr ⟨some v⟩ ≠ "" := by
  by_cases hp : pyStartsWith v "--" = true
  · intro he
    rw [Flag.toStr] at he
    simp [hp] at he
    subst he
    simp [pyStartsWith, List.isPrefixOf] at hp
  · intro he
    rw [Flag.toStr] at he
    simp [hp] at he
    have : ("--" ++ v).data = ("" : String).data := by rw [he]
    simp [String.data_append] at this

/-- The canonical string of a Flag that tests as set is never empty. -/
theorem Flag.toStr_ne_empty_of_set (f : Flag) (hb : f.toBool = true) :
    f.toStr ≠ "" := by
  cases f with
  | mk fl =>
    cases fl with
    | none => simp [Flag.toBool] at hb
    | some w => exact Flag.toStr_some_ne_empty w

/-- A parameter token is never empty: it starts with a dash. -/
theorem Parameters.param_ne_empty (k v : String) :
    ("-" ++ pyUpper k ++ "=" ++ v) ≠ "" := by
  intro he
  have : ("-" ++ pyUpper k ++ "=" ++ v).data = ("" : String).data := by rw [he]
  simp [String.data_append] at this

/-- Stringifying a plain-string Command argument is the identity. -/
theorem Arg.toStr_comp_ofStr : Arg.toStr ∘ Arg.ofStr = id :=
  funext (fun _ => rfl)

/-- Membership makes contains true. -/
theorem contains_true_of_mem (l : List String) (a : String) (h : a ∈ l) :
    l.contains a = true :=
  List.elem_iff.mpr h

/-- Non-membership makes contains false. -/
theorem contains_false_of_not_mem (l : List String) (a : String)
    (h : a ∉ l) : l.contains a = false := by
  cases hc : l.contains a with
  | false => rfl
  | true => exact absurd (List.elem_iff.mp hc) h

/-- Lists with the same members agree on contains. -/
theorem contains_eq_of_mem_iff (l l' : List String) (a : String)
    (h : a ∈ l ↔ a ∈ l') : l.contains a = l'.contains a := by
  by_cases hm : a ∈ l
  · rw [contains_true_of_mem l a hm, contains_true_of_mem l' a (h.mp hm)]
  · rw [contains_false_of_not_mem l a hm,
      contains_false_of_not_mem l' a (fun hm2 => hm (h.mpr hm2))]

/-! Claim theorems. -/

/-- C1: constructing Parameters from keyword arguments (with the distinct
keys Python guarantees) yields exactly one token per argument, each being
the dash, the key uppercased, an equals sign and the stringified value,
in insertion order; empty construction gives an empty mapping and empty
token list. -/
theorem C1_parameters_tokens (kwargs : List (String × SupportsStr))
    (hk : (kwargs.map Prod.fst).Nodup) :
    (Parameters.ofKwargs kwargs).params
        = kwargs.map (fun kv => "-" ++ pyUpper kv.1 ++ "=" ++ kv.2.str)
      ∧ (Parameters.ofKwargs kwargs).params.length = kwargs.length
      ∧ (Parameters.ofKwargs kwargs).keys.Nodup
      ∧ (Parameters.ofKwargs []).entries = []
      ∧ (Parameters.ofKwargs []).params = [] := by
  have hkeys : (Parameters.ofKwargs kwargs).keys = kwargs.map Prod.fst := by
    simp [Parameters.ofKwargs, Parameters.keys]
  refine ⟨?_, ?_, hkeys ▸ hk, rfl, rfl⟩ <;>
    simp [Parameters.ofKwargs, Parameters.params]

/-- Witness for C1 at a concrete keyword-argument list. -/
theorem C1_parameters_tokens_witness :
    (Parameters.ofKwargs [("elevation", SupportsStr.s "a/b"),
        ("method", SupportsStr.i 0)]).params = ["-ELEVATION=a/b", "-METHOD=0"]
      ∧ (Parameters.ofKwargs []).params = [] := by
  have h := C1_parameters_tokens
    [("elevation", SupportsStr.s "a/b"), ("method", SupportsStr.i 0)] (by decide)
  exact ⟨h.1.trans (by decide), h.2.2.2.2⟩

/-- C3: the canonical Flag string is the raw value unchanged when it
already starts with the double-dash prefix, the prefix prepended for any
other non-empty raw string, and empty when the raw value is absent. -/
theorem C3_flag_canonical_string (f : Flag) :
    (f.flag = none → f.toStr = "")
      ∧ (∀ s, f.flag = some s → pyStartsWith s "--" = true → f.toStr = s)
      ∧ (∀ s, f.flag = some s → pyStartsWith s "--" = false → s ≠ "" →
          f.toStr = "--" ++ s) :=
  ⟨fun h => by simp [Flag.toStr, h],
   fun s hs hp => by simp [Flag.toStr, hs, hp],
   fun s hs hp _ => by simp [Flag.toStr, hs, hp]⟩

/-- Witness for C3 at the three kinds of raw value. -/
theorem C3_flag_canonical_string_witness :
    Flag.toStr ⟨some "--help"⟩ = "--help"
      ∧ Flag.toStr ⟨some "help"⟩ = "--help"
      ∧ Flag.toStr ⟨none⟩ = "" :=
  ⟨(C3_flag_canonical_string ⟨some "--help"⟩).2.1 "--help" rfl (by decide),
   (C3_flag_canonical_string ⟨some "help"⟩).2.2 "help" rfl (by decide)
     (by decide),
   (C3_flag_canonical_string ⟨none⟩).1 rfl⟩

/-- C9 counterexample: the Flag built from the raw value help
canonicalizes to double-dash help, and the plain string help
canonicalizes the same way, so the claim predicts the equality test
succeeds; the code compares the canonical form of the Flag with the raw
string operand verbatim and the test fails. -/
theorem C9_counterexample :
    Flag.toStr ⟨some "help"⟩ = "--help"
      ∧ Flag.eq ⟨some "help"⟩ (FlagOrStr.st "help") = false := by
  constructor <;> decide

/-- C9 amended: two Flags compare equal exactly when their canonical
strings match; a Flag and a plain string compare equal exactly when the
canonical Flag string equals the plain string verbatim, the string not
being canonicalized, so the Flag built from help equals the string
double-dash help but not the string help. -/
theorem C9_flag_equality (f g : Flag) (s : String) :
    (Flag.eq f (FlagOrStr.fl g) = (f.toStr == g.toStr))
      ∧ (Flag.eq f (FlagOrStr.st s) = (f.toStr == s))
      ∧ Flag.eq ⟨some "help"⟩ (FlagOrStr.st "--help") = true
      ∧ Flag.eq ⟨some "help"⟩ (FlagOrStr.st "help") = false := by
  refine ⟨?_, rfl, by decide, by decide⟩
  show (g.toStr == f.toStr) = (f.toStr == g.toStr)
  by_cases h : f.toStr = g.toStr
  · rw [h]
  · have h2 : ¬ g.toStr = f.toStr := fun he => h he.symm
    simp [h, h2]

/-- C6: SAGACMD construction validates existence first, then
not-a-directory, then executability; each failure returns its distinct
error kind and no object, a directory fails with the is-a-directory kind
whatever its executable bit, a missing path fails with the
path-not-found kind, and only an existing executable non-directory file
yields the constructed handle. -/
theorem C6_sagacmd_validation (fs : FileSystem) (p : String) :
    (fs p = none → SAGACMD.init fs p = .error SagaError.pathDoesNotExist)
      ∧ (∀ e, fs p = some e → e.kind = FileKind.directory →
          SAGACMD.init fs p = .error SagaError.isADirectory)
      ∧ (∀ e, fs p = some e → e.kind = FileKind.file → e.executable = false →
          SAGACMD.init fs p = .error SagaError.notExecutable)
      ∧ (∀ e, fs p = some e → e.kind = FileKind.file → e.executable = true →
          SAGACMD.init fs p = .ok ⟨p⟩) := by
  refine ⟨fun h => ?_, fun e he hk => ?_, fun e he hk hx => ?_,
    fun e he hk hx => ?_⟩
  · simp [SAGACMD.init, check_is_file, check_is_executable, h]
  · simp [SAGACMD.init, check_is_file, check_is_executable, he, hk]
  · simp [SAGACMD.init, check_is_file, check_is_executable, he, hk, hx]
  · simp [SAGACMD.init, check_is_file, check_is_executable, he, hk, hx]

/-- Witness for C6 on a four-path filesystem. -/
theorem C6_sagacmd_validation_witness :
    SAGACMD.init
        (fun q => if q = "dir" then some ⟨FileKind.directory, true⟩ else none)
        "dir" = .error SagaError.isADirectory
      ∧ SAGACMD.init (fun _ => none) "missing"
          = .error SagaError.pathDoesNotExist
      ∧ SAGACMD.init
          (fun q => if q = "plain" then some ⟨FileKind.file, false⟩ else none)
          "plain" = .error SagaError.notExecutable
      ∧ SAGACMD.init
          (fun q => if q = "saga_cmd" then some ⟨FileKind.file, true⟩ else none)
          "saga_cmd" = .ok ⟨"saga_cmd"⟩ :=
  ⟨(C6_sagacmd_validation _ "dir").2.1 ⟨FileKind.directory, true⟩
      (by decide) rfl,
   (C6_sagacmd_validation (fun _ => none) "missing").1 rfl,
   (C6_sagacmd_validation _ "plain").2.2.1 ⟨FileKind.file, false⟩
      (by decide) rfl rfl,
   (C6_sagacmd_validation _ "saga_cmd").2.2.2 ⟨FileKind.file, true⟩
      (by decide) rfl rfl⟩

/-- C5: executing a Command returns the completed process with the exit
status and both captured streams preserved, whatever the exit status, so
a non-zero status is returned as data and never raised; a spawn failure
is the only raised outcome and keeps its distinct kind. -/
theorem C5_execute_preserves_result (c : Command) (os : OSModel) :
    (∀ rc out err, os c.args = .ok (rc, out, err) →
        c.execute os = .ok ⟨c.args, rc, out, err⟩)
      ∧ (∀ e, os c.args = .error e → c.execute os = .error e) :=
  ⟨fun rc out err h => by simp [Command.execute, subprocess_run, h],
   fun e h => by simp [Command.execute, subprocess_run, h]⟩

/-- Witness for C5: a child exiting with status two is returned, not
raised, and a missing executable raises the spawn error kind. -/
theorem C5_execute_preserves_result_witness :
    Command.execute ⟨["saga_cmd", "--help"]⟩
        (fun a => if a = ["saga_cmd", "--help"]
          then .ok (2, "usage", "") else .error SpawnError.fileNotFound)
        = .ok ⟨["saga_cmd", "--help"], 2, "usage", ""⟩
      ∧ Command.execute ⟨["gone"]⟩ (fun _ => .error SpawnError.fileNotFound)
          = .error SpawnError.fileNotFound :=
  ⟨(C5_execute_preserves_result ⟨["saga_cmd", "--help"]⟩ _).1 2 "usage" ""
      rfl,
   (C5_execute_preserves_result ⟨["gone"]⟩ _).2 SpawnError.fileNotFound rfl⟩

/-- C4: extraction returns one handle per stored entry whose key is among
the requested names, wrapping the stored value, in the insertion order of
the Parameter Set; the order of the requested names is irrelevant;
requested names matching no stored key contribute nothing and raise no
error; and on the concrete Parameter Set of the claim the stated results
are produced by get_raster and get_vector alike. -/
theorem C4_output_extraction (o : Output) (req junk : List String)
    (cp : CompletedProcess) :
    ((o.get_raster (.many req)).map Raster.path
        = (o.parameters.entries.filter
            (fun kv => req.contains kv.1)).map Prod.snd)
      ∧ ((o.get_vector (.many req)).map Vector.path
          = (o.parameters.entries.filter
              (fun kv => req.contains kv.1)).map Prod.snd)
      ∧ (∀ req', (∀ k, k ∈ req ↔ k ∈ req') →
          o.get_raster (.many req) = o.get_raster (.many req'))
      ∧ ((∀ j ∈ junk, j ∉ o.parameters.keys) →
          o.get_raster (.many (req ++ junk)) = o.get_raster (.many req))
      ∧ (Output.ofRun cp (Parameters.ofKwargs
            [("elevation", SupportsStr.s "out.tif"),
             ("grid", SupportsStr.s "grid.tif"),
             ("method", SupportsStr.s "0")])).get_raster
            (.many ["elevation", "grid"]) = [⟨"out.tif"⟩, ⟨"grid.tif"⟩]
      ∧ (Output.ofRun cp (Parameters.ofKwargs
            [("elevation", SupportsStr.s "out.tif"),
             ("grid", SupportsStr.s "grid.tif"),
             ("method", SupportsStr.s "0")])).get_raster
            (.many ["grid", "elevation"]) = [⟨"out.tif"⟩, ⟨"grid.tif"⟩]
      ∧ (Output.ofRun cp (Parameters.ofKwargs
            [("elevation", SupportsStr.s "out.tif"),
             ("grid", SupportsStr.s "grid.tif"),
             ("method", SupportsStr.s "0")])).get_raster
            (.many ["missing"]) = []
      ∧ (Output.ofRun cp (Parameters.ofKwargs
            [("elevation", SupportsStr.s "out.tif"),
             ("grid", SupportsStr.s "grid.tif"),
             ("method", SupportsStr.s "0")])).get_raster
            (.one "elevation") = [⟨"out.tif"⟩]
      ∧ (Output.ofRun cp (Parameters.ofKwargs
            [("elevation", SupportsStr.s "out.tif"),
             ("grid", SupportsStr.s "grid.tif"),
             ("method", SupportsStr.s "0")])).get_vector
            (.many ["elevation", "grid"]) = [⟨"out.tif"⟩, ⟨"grid.tif"⟩] := by
  refine ⟨?_, ?_, ?_, ?_, rfl, rfl, rfl, rfl, rfl⟩
  · simp [Output.get_raster, StrOrSeq.toList]
  · simp [Output.get_vector, StrOrSeq.toList]
  · intro req' hmem
    have hfil : o.parameters.entries.filter (fun kv => req.contains kv.1)
        = o.parameters.entries.filter (fun kv => req'.contains kv.1) :=
      List.filter_congr
        (fun kv _ => contains_eq_of_mem_iff req req' kv.1 (hmem kv.1))
    show (o.parameters.entries.filter
          (fun kv => req.contains kv.1)).map (fun kv => (⟨kv.2⟩ : Raster))
        = (o.parameters.entries.filter
            (fun kv => req'.contains kv.1)).map (fun kv => (⟨kv.2⟩ : Raster))
    rw [hfil]
  · intro hjunk
    have hfil : o.parameters.entries.filter
          (fun kv => (req ++ junk).contains kv.1)
        = o.parameters.entries.filter (fun kv => req.contains kv.1) := by
      refine List.filter_congr (fun kv hkv => ?_)
      have hnotj : kv.1 ∉ junk := fun hj =>
        hjunk kv.1 hj (List.mem_map.mpr ⟨kv, hkv, rfl⟩)
      refine contains_eq_of_mem_iff (req ++ junk) req kv.1 ⟨fun hm => ?_,
        fun hm => List.mem_append.mpr (Or.inl hm)⟩
      rcases List.mem_append.mp hm with h | h
      · exact h
      · exact absurd h hnotj
    show (o.parameters.entries.filter
          (fun kv => (req ++ junk).contains kv.1)).map
          (fun kv => (⟨kv.2⟩ : Raster))
        = (o.parameters.entries.filter
            (fun kv => req.contains kv.1)).map (fun kv => (⟨kv.2⟩ : Raster))
    rw [hfil]

/-- Witness for C4 on the concrete Parameter Set of the claim. -/
theorem C4_output_extraction_witness :
    ((Output.ofRun ⟨["x"], 0, "", ""⟩ (Parameters.ofKwargs
          [("elevation", SupportsStr.s "out.tif"),
           ("grid", SupportsStr.s "grid.tif"),
           ("method", SupportsStr.s "0")])).get_raster
          (.many (["elevation", "grid"] ++ ["missing"]))
        = (Output.ofRun ⟨["x"], 0, "", ""⟩ (Parameters.ofKwargs
            [("elevation", SupportsStr.s "out.tif"),
             ("grid", SupportsStr.s "grid.tif"),
             ("method", SupportsStr.s "0")])).get_raster
            (.many ["elevation", "grid"]))
      ∧ (Output.ofRun ⟨["x"], 0, "", ""⟩ (Parameters.ofKwargs
            [("elevation", SupportsStr.s "out.tif"),
             ("grid", SupportsStr.s "grid.tif"),
             ("method", SupportsStr.s "0")])).get_raster
            (.many ["elevation", "grid"]) = [⟨"out.tif"⟩, ⟨"grid.tif"⟩] := by
  have h := C4_output_extraction
    (Output.ofRun ⟨["x"], 0, "", ""⟩ (Parameters.ofKwargs
      [("elevation", SupportsStr.s "out.tif"),
       ("grid", SupportsStr.s "grid.tif"),
       ("method", SupportsStr.s "0")]))
    ["elevation", "grid"] ["missing"] ⟨["x"], 0, "", ""⟩
  exact ⟨h.2.2.2.1 (by decide), h.2.2.2.2.1⟩

/-- C2 counterexample: descending with the empty library name yields a
command whose token sequence contains an empty token, because the Library
object passed to Command is a truthy dataclass even when its name is the
empty string, so the falsy-input filter does not drop it and its
stringification is empty. -/
theorem C2_counterexample :
    let h : Heap := ⟨[⟨none⟩]⟩
    let s : SAGA := ⟨⟨"saga_cmd"⟩, 0⟩
    let t := ((s.get_library h "").2.get_tool h "0").2
    (t.command h).args = ["saga_cmd", "", "0"]
      ∧ "" ∈ (t.command h).args := by
  decide

/-- C2 amended: provided the executable path, the library name and the
tool name are non-empty strings, the command of a Tool reached by
descending through get_library and get_tool and configured with
set_params is exactly the executable path, the flag token when and only
when the flag is set, the library name, the tool name, and the parameter
tokens in insertion order, and no token in the sequence is empty. -/
theorem C2_tool_command (h : Heap) (s : SAGA) (lib tool : String)
    (kwargs : List (String × SupportsStr))
    (hpath : s.saga_cmd.saga_cmd_path ≠ "")
    (hlib : lib ≠ "") (htool : tool ≠ "") :
    ((((s.get_library h lib).2.get_tool h tool).2.set_params
          kwargs).command h).args
        = [s.saga_cmd.saga_cmd_path]
          ++ (if (s.flag h).toBool then [(s.flag h).toStr] else [])
          ++ [lib, tool] ++ (Parameters.ofKwargs kwargs).params
      ∧ ∀ a ∈ ((((s.get_library h lib).2.get_tool h tool).2.set_params
            kwargs).command h).args, a ≠ "" := by
  have htool2 : (tool == "") = false := by
    cases hc : tool == "" with
    | false => rfl
    | true => exact absurd (eq_of_beq hc) htool
  have hfil : ((Parameters.ofKwargs kwargs).params.map Arg.ofStr).filter
        Arg.truthy
      = (Parameters.ofKwargs kwargs).params.map Arg.ofStr := by
    refine List.filter_eq_self.mpr (fun a ha => ?_)
    rcases List.mem_map.mp ha with ⟨p, hp, rfl⟩
    rcases List.mem_map.mp hp with ⟨kv, hkv, rfl⟩
    simp only [Arg.truthy, Bool.not_eq_eq_eq_not, Bool.not_true,
      beq_eq_false_iff_ne, ne_eq]
    exact Parameters.param_ne_empty kv.1 kv.2
  have eq1 : ((((s.get_library h lib).2.get_tool h tool).2.set_params
        kwargs).command h).args
      = [s.saga_cmd.saga_cmd_path]
        ++ (if (s.flag h).toBool then [(s.flag h).toStr] else [])
        ++ [lib, tool] ++ (Parameters.ofKwargs kwargs).params := by
    show ((([Arg.ofSagaCmd s.saga_cmd, Arg.ofFlag (h.get s.flagRef),
          Arg.ofLibrary lib, Arg.ofStr tool]
          ++ (Parameters.ofKwargs kwargs).params.map Arg.ofStr).filter
            Arg.truthy).map Arg.toStr) = _
    rw [List.filter_append, List.map_append, hfil]
    cases hb : (h.get s.flagRef).toBool with
    | true =>
      simp [Arg.truthy, Arg.toStr, hb, htool2, SAGA.flag, List.map_map,
        Arg.toStr_comp_ofStr]
    | false =>
      simp [Arg.truthy, Arg.toStr, hb, htool2, SAGA.flag, List.map_map,
        Arg.toStr_comp_ofStr]
  refine ⟨eq1, ?_⟩
  rw [eq1]
  intro a ha
  rcases List.mem_append.mp ha with h1 | hparam
  · rcases List.mem_append.mp h1 with h2 | hlt
    · rcases List.mem_append.mp h2 with hp1 | hflag
      · rw [List.mem_singleton.mp hp1]
        exact hpath
      · cases hb : (s.flag h).toBool with
        | true =>
          rw [hb] at hflag
          simp only [if_true, eq_self_iff_true, List.mem_singleton] at hflag
          rw [hflag]
          exact Flag.toStr_ne_empty_of_set (s.flag h) hb
        | false =>
          rw [hb] at hflag
          simp at hflag
    · rcases List.mem_cons.mp hlt with h3 | h4
      · rw [h3]; exact hlib
      · rw [List.mem_singleton.mp h4]; exact htool
  · rcases List.mem_map.mp hparam with ⟨kv, hkv, rfl⟩
    exact Parameters.param_ne_empty kv.1 kv.2

/-- Witness for C2 amended at a concrete descent. -/
theorem C2_tool_command_witness :
    ((((SAGA.mk ⟨"saga_cmd"⟩ 0).get_library ⟨[⟨some "help"⟩]⟩
          "ta_morphometry").2.get_tool ⟨[⟨some "help"⟩]⟩ "0").2.set_params
          [("elevation", SupportsStr.s "dem.tif")]).command
        ⟨[⟨some "help"⟩]⟩
      = ⟨["saga_cmd", "--help", "ta_morphometry", "0",
          "-ELEVATION=dem.tif"]⟩ := by
  have h := C2_tool_command ⟨[⟨some "help"⟩]⟩ ⟨⟨"saga_cmd"⟩, 0⟩
    "ta_morphometry" "0" [("elevation", SupportsStr.s "dem.tif")]
    (by decide) (by decide) (by decide)
  exact congrArg Command.mk (h.1.trans (by decide))

/-- C7: after descending from SAGA to Library to Tool, setting,
replacing or clearing the Flag on one instance rebinds only that
instance to a freshly allocated Flag cell, so the command of every
already-created ancestor or descendant instance is unchanged. -/
theorem C7_flag_independence (h : Heap) (s : SAGA) (lib tool : String)
    (v : Option String) (hs : s.flagRef < h.flags.length) :
    ((s.get_library h lib).2.command (s.set_flag h v).1
        = (s.get_library h lib).2.command h)
      ∧ (((s.get_library h lib).2.get_tool h tool).2.command
            (s.set_flag h v).1
          = ((s.get_library h lib).2.get_tool h tool).2.command h)
      ∧ (s.command ((s.get_library h lib).2.set_flag h v).1 = s.command h)
      ∧ (((s.get_library h lib).2.get_tool h tool).2.command
            ((s.get_library h lib).2.set_flag h v).1
          = ((s.get_library h lib).2.get_tool h tool).2.command h)
      ∧ (s.command
            (((s.get_library h lib).2.get_tool h tool).2.set_flag h v).1
          = s.command h)
      ∧ ((s.get_library h lib).2.command
            (((s.get_library h lib).2.get_tool h tool).2.set_flag h v).1
          = (s.get_library h lib).2.command h)
      ∧ (s.command (((s.get_library h lib).2.get_tool h tool).2.del_flag h).1
          = s.command h)
      ∧ ((s.get_library h lib).2.command
            (((s.get_library h lib).2.get_tool h tool).2.del_flag h).1
          = (s.get_library h lib).2.command h) := by
  have key : ∀ f : Flag, (h.alloc f).1.get s.flagRef = h.get s.flagRef :=
    fun f => Heap.get_alloc_lt h f s.flagRef hs
  refine ⟨?_, ?_, ?_, ?_, ?_, ?_, ?_, ?_⟩ <;>
    simp [SAGA.get_library, Library.init, Library.get_tool, Tool.init,
      allocFlagInit, SAGA.command, Library.command, Tool.command,
      SAGA.flag, Library.flag, Tool.flag, SAGA.set_flag, Library.set_flag,
      Tool.set_flag, Tool.del_flag, key]

/-- Witness for C7: the library created before the flag change still
produces its old command afterwards. -/
theorem C7_flag_independence_witness :
    ((SAGA.mk ⟨"saga_cmd"⟩ 0).get_library ⟨[⟨none⟩]⟩ "lib").2.command
        ((SAGA.mk ⟨"saga_cmd"⟩ 0).set_flag ⟨[⟨none⟩]⟩ (some "help")).1
      = ((SAGA.mk ⟨"saga_cmd"⟩ 0).get_library ⟨[⟨none⟩]⟩ "lib").2.command
          ⟨[⟨none⟩]⟩ :=
  (C7_flag_independence ⟨[⟨none⟩]⟩ ⟨⟨"saga_cmd"⟩, 0⟩ "lib" "0" (some "help")
    (by decide)).1

/-- C8: at each level, setting the Flag to any value and then clearing
it leaves the level producing exactly the command of an unset Flag,
which is also the command produced by an instance whose Flag was never
set (constructed from a raw None flag). -/
theorem C8_set_then_clear (h : Heap) (s : SAGA) (l : Library) (t : Tool)
    (v : Option String) :
    (((s.set_flag h v).2.del_flag (s.set_flag h v).1).2.command
          ((s.set_flag h v).2.del_flag (s.set_flag h v).1).1
        = Command.ofArgs [.ofSagaCmd s.saga_cmd, .ofFlag ⟨none⟩])
      ∧ ((SAGA.init h s.saga_cmd (.raw none)).2.command
            (SAGA.init h s.saga_cmd (.raw none)).1
          = Command.ofArgs [.ofSagaCmd s.saga_cmd, .ofFlag ⟨none⟩])
      ∧ (((l.set_flag h v).2.del_flag (l.set_flag h v).1).2.command
            ((l.set_flag h v).2.del_flag (l.set_flag h v).1).1
          = Command.ofArgs [.ofSagaCmd l.saga_cmd, .ofFlag ⟨none⟩,
              .ofStr l.library])
      ∧ ((Library.init h l.library l.saga_cmd (.raw none)).2.command
            (Library.init h l.library l.saga_cmd (.raw none)).1
          = Command.ofArgs [.ofSagaCmd l.saga_cmd, .ofFlag ⟨none⟩,
              .ofStr l.library])
      ∧ (((t.set_flag h v).2.del_flag (t.set_flag h v).1).2.command
            ((t.set_flag h v).2.del_flag (t.set_flag h v).1).1
          = Command.ofArgs
              ([.ofSagaCmd t.saga_cmd, .ofFlag ⟨none⟩,
                .ofLibrary t.library.library, .ofStr t.tool]
               ++ t.parameters.params.map Arg.ofStr)) := by
  refine ⟨?_, ?_, ?_, ?_, ?_⟩ <;>
    simp [SAGA.set_flag, SAGA.del_flag, SAGA.command, SAGA.flag, SAGA.init,
      Library.set_flag, Library.del_flag, Library.command, Library.flag,
      Library.init, Tool.set_flag, Tool.del_flag, Tool.command, Tool.flag,
      allocFlagInit, Heap.get_alloc_self]

/-- C10: run with no named values keeps the stored Parameter Set, and
the executed command and the returned Output both use it; run with at
least one named value first replaces the Parameter Set with the newly
built one, which the executed command and the Output then use. -/
theorem C10_run_command (h : Heap) (t : Tool) (os : OSModel)
    (kwargs : List (String × SupportsStr)) :
    ((t.run_command h os []).1 = t)
      ∧ ((t.run_command h os []).2
          = ((t.command h).execute os).map
              (fun cp => Output.ofRun cp t.parameters))
      ∧ (kwargs ≠ [] →
          (t.run_command h os kwargs).1 = t.set_params kwargs
            ∧ (t.run_command h os kwargs).2
              = (((t.set_params kwargs).command h).execute os).map
                  (fun cp => Output.ofRun cp (Parameters.ofKwargs kwargs))) := by
  refine ⟨?_, ?_, fun hk => ⟨?_, ?_⟩⟩
  · cases hE : (t.command h).execute os <;>
      simp [Tool.run_command, hE]
  · cases hE : (t.command h).execute os <;>
      simp [Tool.run_command, hE, Except.map]
  · cases kwargs with
    | nil => exact absurd rfl hk
    | cons a l =>
      cases hE : ((t.set_params (a :: l)).command h).execute os with
      | error e =>
        simp only [Tool.set_params] at hE
        simp [Tool.run_command, Tool.set_params, hE]
      | ok cp =>
        simp only [Tool.set_params] at hE
        simp [Tool.run_command, Tool.set_params, hE]
  · cases kwargs with
    | nil => exact absurd rfl hk
    | cons a l =>
      cases hE : ((t.set_params (a :: l)).command h).execute os with
      | error e =>
        simp only [Tool.set_params] at hE
        simp [Tool.run_command, Tool.set_params, hE, Except.map]
      | ok cp =>
        simp only [Tool.set_params] at hE
        simp [Tool.run_command, Tool.set_params, hE, Except.map]

/-- Witness for C10: a call with one named value replaces the stored
Parameter Set. -/
theorem C10_run_command_witness :
    ((Tool.mk ⟨"saga_cmd"⟩ 0 ⟨⟨"saga_cmd"⟩, 0, "lib"⟩ "0"
          (Parameters.ofKwargs [("a", SupportsStr.s "1")])).run_command
        ⟨[⟨none⟩]⟩ (fun _ => .ok (0, "", ""))
        [("b", SupportsStr.s "2")]).1
      = (Tool.mk ⟨"saga_cmd"⟩ 0 ⟨⟨"saga_cmd"⟩, 0, "lib"⟩ "0"
          (Parameters.ofKwargs [("a", SupportsStr.s "1")])).set_params
          [("b", SupportsStr.s "2")] :=
  ((C10_run_command ⟨[⟨none⟩]⟩
      (Tool.mk ⟨"saga_cmd"⟩ 0 ⟨⟨"saga_cmd"⟩, 0, "lib"⟩ "0"
        (Parameters.ofKwargs [("a", SupportsStr.s "1")]))
      (fun _ => .ok (0, "", ""))
      [("b", SupportsStr.s "2")]).2.2 (List.cons_ne_nil _ _)).1

end PySAGA
